import Mathlib

/-!
Verification of `server_monitor/agent/cpu/cpu_monitor.py`.

The module is a thin mapping from an OS statistics facility (psutil) to a
structured metrics record.  We embed the facility as a record of query
results: each psutil call either returns a value or raises a Python
exception, modelled by `Except PyError`.  Python `TypedDict` values are
embedded as association lists of string keys, so that claims about which
keys are present in a returned record are genuine statements.  Float
values carry no arithmetic in this module (they are passed through,
defaulted to `0.0`, or replaced by the sentinel `-1.0`), so we model them
as rationals.
-/

namespace ServerMonitor

/-- Python exception kinds relevant to `cpu_monitor.py`: the two caught by
`get_load_average` (`AttributeError`, `NotImplementedError`) and every
other exception class, identified by its name. -/
inductive PyError
  | attributeError
  | notImplementedError
  | other (name : String)
  deriving DecidableEq, Repr

/-- The OS statistics facility (psutil) as observed by one collection run:
each field is the outcome of the corresponding psutil query.
`cpu_times` is the namedtuple returned by `psutil.cpu_times_percent()`,
embedded as its field/value list (fields vary by platform). -/
structure Facility where
  cpu_percent_percpu : Except PyError (List ℚ)
  cpu_percent_avg : Except PyError ℚ
  getloadavg : Except PyError (ℚ × ℚ × ℚ)
  cpu_times : Except PyError (List (String × ℚ))

/-- `get_cpu_usage_per_core`: returns `psutil.cpu_percent(percpu=True)`
unchanged; an exception propagates. -/
def get_cpu_usage_per_core (f : Facility) : Except PyError (List ℚ) :=
  f.cpu_percent_percpu

/-- `get_cpu_usage_average`: returns `psutil.cpu_percent(percpu=False)`
unchanged; an exception propagates. -/
def get_cpu_usage_average (f : Facility) : Except PyError ℚ :=
  f.cpu_percent_avg

/-- `get_load_average`: unpacks `psutil.getloadavg()` into the three-key
dict; `except (AttributeError, NotImplementedError)` yields the sentinel
dict; any other exception propagates. -/
def get_load_average (f : Facility) : Except PyError (List (String × ℚ)) :=
  match f.getloadavg with
  | .ok (load1, load5, load15) =>
      .ok [("load_1_min", load1), ("load_5_min", load5), ("load_15_min", load15)]
  | .error .attributeError =>
      .ok [("load_1_min", -1), ("load_5_min", -1), ("load_15_min", -1)]
  | .error .notImplementedError =>
      .ok [("load_1_min", -1), ("load_5_min", -1), ("load_15_min", -1)]
  | .error e => .error e

/-- Python `getattr(times, name, default)` on a namedtuple embedded as a
field/value list. -/
def getattrD (times : List (String × ℚ)) (name : String) (default : ℚ) : ℚ :=
  match times.lookup name with
  | some v => v
  | none => default

/-- The dict literal built by `get_cpu_times_percent` from the namedtuple
`times`: each of the ten keys, via `getattr(times, key, 0.0)`. -/
def cpu_times_dict (times : List (String × ℚ)) : List (String × ℚ) :=
  [("user", getattrD times "user" 0),
   ("system", getattrD times "system" 0),
   ("idle", getattrD times "idle" 0),
   ("nice", getattrD times "nice" 0),
   ("iowait", getattrD times "iowait" 0),
   ("irq", getattrD times "irq" 0),
   ("softirq", getattrD times "softirq" 0),
   ("steal", getattrD times "steal" 0),
   ("guest", getattrD times "guest" 0),
   ("guest_nice", getattrD times "guest_nice" 0)]

/-- `get_cpu_times_percent`: calls `psutil.cpu_times_percent()` (an
exception propagates) and converts the namedtuple to the ten-key dict. -/
def get_cpu_times_percent (f : Facility) : Except PyError (List (String × ℚ)) :=
  match f.cpu_times with
  | .ok times => .ok (cpu_times_dict times)
  | .error e => .error e

/-- Values stored in the top-level `CPUMetrics` dict. -/
inductive Val
  | num (q : ℚ)
  | list (xs : List ℚ)
  | dict (d : List (String × ℚ))
  deriving DecidableEq, Repr

/-- `collect_cpu_metrics`: builds the five-key dict literal; `now` is the
`time.time()` reading.  Python evaluates the dict values in order, and an
uncaught exception from any sub-query propagates. -/
def collect_cpu_metrics (now : ℚ) (f : Facility) :
    Except PyError (List (String × Val)) := do
  let perCore ← get_cpu_usage_per_core f
  let avg ← get_cpu_usage_average f
  let load ← get_load_average f
  let times ← get_cpu_times_percent f
  pure [("timestamp", Val.num now),
        ("cpu_usage_per_core", Val.list perCore),
        ("cpu_usage_average", Val.num avg),
        ("load_average", Val.dict load),
        ("cpu_times_percent", Val.dict times)]

/-- The ten keys of `CPUTimesPercent`, in construction order. -/
def cpuTimesKeys : List String :=
  ["user", "system", "idle", "nice", "iowait",
   "irq", "softirq", "steal", "guest", "guest_nice"]

/-- The three keys of `LoadAverage`, in construction order. -/
def loadKeys : List String := ["load_1_min", "load_5_min", "load_15_min"]

/-- The five keys of `CPUMetrics`, in construction order. -/
def metricsKeys : List String :=
  ["timestamp", "cpu_usage_per_core", "cpu_usage_average",
   "load_average", "cpu_times_percent"]

/-- Every value in a load-average dict is non-negative. -/
def allNonneg (d : List (String × ℚ)) : Prop := ∀ p ∈ d, 0 ≤ p.2

/-- Every value in a load-average dict is the sentinel `-1.0`. -/
def allSentinel (d : List (String × ℚ)) : Prop := ∀ p ∈ d, p.2 = -1

/-- C1: `get_load_average` returns the sentinel record
`{-1.0, -1.0, -1.0}` when `psutil.getloadavg()` raises `AttributeError`
or `NotImplementedError`, and returns the facility triple `(l1, l5, l15)`
unchanged under the three keys otherwise. -/
theorem get_load_average_spec (f : Facility) :
    ((f.getloadavg = .error .attributeError ∨
      f.getloadavg = .error .notImplementedError) →
      get_load_average f =
        .ok [("load_1_min", -1), ("load_5_min", -1), ("load_15_min", -1)]) ∧
    (∀ l1 l5 l15, f.getloadavg = .ok (l1, l5, l15) →
      get_load_average f =
        .ok [("load_1_min", l1), ("load_5_min", l5), ("load_15_min", l15)]) := by
  refine ⟨fun h => ?_, fun l1 l5 l15 h => ?_⟩
  · rcases h with h | h <;> simp [get_load_average, h]
  · simp [get_load_average, h]

/-- Witness for C1 at a concrete facility whose load query raises
`AttributeError`. -/
theorem get_load_average_spec_witness :
    get_load_average ⟨.ok [], .ok 0, .error .attributeError, .ok []⟩ =
      .ok [("load_1_min", -1), ("load_5_min", -1), ("load_15_min", -1)] :=
  (get_load_average_spec ⟨.ok [], .ok 0, .error .attributeError, .ok []⟩).1
    (Or.inl rfl)

/-- C2: whenever the facility's per-state times query returns a record,
`get_cpu_times_percent` succeeds with a record in which each of the ten
named keys maps to the facility's value when present, and to `0.0` when
absent. -/
theorem get_cpu_times_percent_fields (f : Facility) (times : List (String × ℚ))
    (h : f.cpu_times = .ok times) :
    get_cpu_times_percent f = .ok (cpu_times_dict times) ∧
    ∀ n ∈ cpuTimesKeys,
      (cpu_times_dict times).lookup n = some ((times.lookup n).getD 0) := by
  refine ⟨by simp [get_cpu_times_percent, h], fun n hn => ?_⟩
  have hg : ∀ m, getattrD times m 0 = (times.lookup m).getD 0 := by
    intro m
    unfold getattrD
    cases times.lookup m <;> rfl
  fin_cases hn <;>
    simp [cpu_times_dict, List.lookup, hg]

/-- Witness for C2 at the partial record from the module's test suite:
`{user: 10.0, system: 5.0, idle: 80.0, iowait: 2.5}`. -/
theorem get_cpu_times_percent_fields_witness :
    get_cpu_times_percent
        ⟨.ok [], .ok 0, .ok (0, 0, 0),
         .ok [("user", 10), ("system", 5), ("idle", 80), ("iowait", 5/2)]⟩ =
      .ok (cpu_times_dict
        [("user", 10), ("system", 5), ("idle", 80), ("iowait", 5/2)]) ∧
    (cpu_times_dict
        [("user", 10), ("system", 5), ("idle", 80), ("iowait", 5/2)]).lookup
        "nice" =
      some ((([("user", (10:ℚ)), ("system", 5), ("idle", 80),
        ("iowait", 5/2)]).lookup "nice").getD 0) := by
  have h := get_cpu_times_percent_fields
    ⟨.ok [], .ok 0, .ok (0, 0, 0),
     .ok [("user", 10), ("system", 5), ("idle", 80), ("iowait", 5/2)]⟩
    [("user", 10), ("system", 5), ("idle", 80), ("iowait", 5/2)] rfl
  exact ⟨h.1, h.2 "nice" (by decide)⟩

/-- C7: when the facility's per-core query returns a list of length `n`,
`get_cpu_usage_per_core` returns a list of length exactly `n` whose entry
at each core index equals the facility's entry at that index. -/
theorem get_cpu_usage_per_core_length (f : Facility) (xs : List ℚ)
    (h : f.cpu_percent_percpu = .ok xs) :
    ∃ ys, get_cpu_usage_per_core f = .ok ys ∧ ys.length = xs.length ∧
      ∀ i (hy : i < ys.length) (hx : i < xs.length),
        ys.get ⟨i, hy⟩ = xs.get ⟨i, hx⟩ := by
  exact ⟨xs, by simp [get_cpu_usage_per_core, h], rfl, fun i hy hx => rfl⟩

/-- Witness for C7 at the three-core list from the module's test suite. -/
theorem get_cpu_usage_per_core_length_witness :
    ∃ ys,
      get_cpu_usage_per_core
          ⟨.ok [21/2, 203/10, 151/5], .ok 0, .ok (0, 0, 0), .ok []⟩ =
        .ok ys ∧
      ys.length = ([(21:ℚ)/2, 203/10, 151/5]).length ∧
      ∀ i (hy : i < ys.length) (hx : i < ([(21:ℚ)/2, 203/10, 151/5]).length),
        ys.get ⟨i, hy⟩ = ([(21:ℚ)/2, 203/10, 151/5]).get ⟨i, hx⟩ :=
  get_cpu_usage_per_core_length
    ⟨.ok [21/2, 203/10, 151/5], .ok 0, .ok (0, 0, 0), .ok []⟩
    [21/2, 203/10, 151/5] rfl

/-- C9: only `AttributeError` and `NotImplementedError` are recovered;
any other exception class raised by `psutil.getloadavg()` propagates out
of `get_load_average` uncaught. -/
theorem get_load_average_propagates (f : Facility) (s : String)
    (h : f.getloadavg = .error (.other s)) :
    get_load_average f = .error (.other s) := by
  simp [get_load_average, h]

/-- Witness for C9 with a raised `OSError`. -/
theorem get_load_average_propagates_witness :
    get_load_average ⟨.ok [], .ok 0, .error (.other "OSError"), .ok []⟩ =
      .error (.other "OSError") :=
  get_load_average_propagates
    ⟨.ok [], .ok 0, .error (.other "OSError"), .ok []⟩ "OSError" rfl

/-- C10: whenever the facility's per-state times query returns a record,
the record `get_cpu_times_percent` returns has exactly the ten named keys:
any key outside the ten (an extra field the facility populates) is absent
from the output. -/
theorem get_cpu_times_percent_keys_exact (f : Facility)
    (times : List (String × ℚ)) (d : List (String × ℚ)) (n : String)
    (h : f.cpu_times = .ok times)
    (hd : get_cpu_times_percent f = .ok d)
    (hn : n ∉ cpuTimesKeys) :
    d.map Prod.fst = cpuTimesKeys ∧ d.lookup n = none := by
  rw [get_cpu_times_percent, h] at hd
  have hde : d = cpu_times_dict times := by
    exact (Except.ok.injEq _ _).mp hd.symm
  subst hde
  simp only [cpuTimesKeys, List.mem_cons, List.not_mem_nil, or_false,
    not_or] at hn
  obtain ⟨h1, h2, h3, h4, h5, h6, h7, h8, h9, h10⟩ := hn
  constructor
  · rfl
  · have e : ∀ m : String, n ≠ m → (n == m) = false := fun m hm =>
      beq_eq_false_iff_ne.mpr hm
    simp [cpu_times_dict, List.lookup, e _ h1, e _ h2, e _ h3, e _ h4,
      e _ h5, e _ h6, e _ h7, e _ h8, e _ h9, e _ h10]

/-- Witness for C10 with a facility record carrying an extra field
`ctx_switches` beyond the ten, which is discarded. -/
theorem get_cpu_times_percent_keys_exact_witness :
    (cpu_times_dict [("user", 10), ("ctx_switches", 7)]).map Prod.fst =
      cpuTimesKeys ∧
    (cpu_times_dict [("user", (10:ℚ)), ("ctx_switches", 7)]).lookup
      "ctx_switches" = none :=
  get_cpu_times_percent_keys_exact
    ⟨.ok [], .ok 0, .ok (0, 0, 0), .ok [("user", 10), ("ctx_switches", 7)]⟩
    [("user", 10), ("ctx_switches", 7)]
    (cpu_times_dict [("user", 10), ("ctx_switches", 7)])
    "ctx_switches" rfl rfl (by decide)

/-- C3: given the clock reading `now` and the four sub-query results,
`collect_cpu_metrics` returns exactly the five-key record holding those
five values unchanged under their respective keys. -/
theorem collect_cpu_metrics_merge (now : ℚ) (f : Facility)
    (pc : List ℚ) (avg : ℚ) (la tp : List (String × ℚ))
    (hpc : get_cpu_usage_per_core f = .ok pc)
    (havg : get_cpu_usage_average f = .ok avg)
    (hla : get_load_average f = .ok la)
    (htp : get_cpu_times_percent f = .ok tp) :
    collect_cpu_metrics now f =
      .ok [("timestamp", Val.num now),
           ("cpu_usage_per_core", Val.list pc),
           ("cpu_usage_average", Val.num avg),
           ("load_average", Val.dict la),
           ("cpu_times_percent", Val.dict tp)] := by
  simp [collect_cpu_metrics, hpc, havg, hla, htp, bind, Except.bind,
    pure, Except.pure]

/-- Witness for C3 at the concrete values of the spec's example:
timestamp `1234567890.0`, per-core `[12.0, 34.0]`, average `23.0`,
load `{0.9, 1.2, 1.5}`, partial times record. -/
theorem collect_cpu_metrics_merge_witness :
    collect_cpu_metrics 1234567890
        ⟨.ok [12, 34], .ok 23, .ok (9/10, 6/5, 3/2),
         .ok [("user", 10), ("system", 5), ("idle", 80), ("iowait", 5/2)]⟩ =
      .ok [("timestamp", Val.num 1234567890),
           ("cpu_usage_per_core", Val.list [12, 34]),
           ("cpu_usage_average", Val.num 23),
           ("load_average",
             Val.dict [("load_1_min", 9/10), ("load_5_min", 6/5),
               ("load_15_min", 3/2)]),
           ("cpu_times_percent",
             Val.dict (cpu_times_dict
               [("user", 10), ("system", 5), ("idle", 80),
                ("iowait", 5/2)]))] :=
  collect_cpu_metrics_merge 1234567890
    ⟨.ok [12, 34], .ok 23, .ok (9/10, 6/5, 3/2),
     .ok [("user", 10), ("system", 5), ("idle", 80), ("iowait", 5/2)]⟩
    [12, 34] 23
    [("load_1_min", 9/10), ("load_5_min", 6/5), ("load_15_min", 3/2)]
    (cpu_times_dict
      [("user", 10), ("system", 5), ("idle", 80), ("iowait", 5/2)])
    rfl rfl rfl rfl

/-- C4: a failure raised by the per-core, average, or times sub-query
propagates out of `collect_cpu_metrics` uncaught (no partial record), and
a successful run requires those three queries to have succeeded and the
load query to have either succeeded or failed with exactly one of the two
locally recovered exception kinds. -/
theorem collect_cpu_metrics_propagates (now : ℚ) (f : Facility) :
    (∀ e, f.cpu_percent_percpu = .error e →
      collect_cpu_metrics now f = .error e) ∧
    (∀ e, (∃ pc, f.cpu_percent_percpu = .ok pc) →
      f.cpu_percent_avg = .error e →
      collect_cpu_metrics now f = .error e) ∧
    (∀ e, (∃ pc, f.cpu_percent_percpu = .ok pc) →
      (∃ avg, f.cpu_percent_avg = .ok avg) →
      (∃ la, get_load_average f = .ok la) →
      f.cpu_times = .error e →
      collect_cpu_metrics now f = .error e) ∧
    (∀ m, collect_cpu_metrics now f = .ok m →
      (∃ pc, f.cpu_percent_percpu = .ok pc) ∧
      (∃ avg, f.cpu_percent_avg = .ok avg) ∧
      (∃ times, f.cpu_times = .ok times) ∧
      ((∃ t, f.getloadavg = .ok t) ∨
        f.getloadavg = .error .attributeError ∨
        f.getloadavg = .error .notImplementedError)) := by
  refine ⟨fun e he => ?_, fun e hpc he => ?_, fun e hpc havg hla he => ?_,
    fun m hm => ?_⟩
  · simp [collect_cpu_metrics, get_cpu_usage_per_core, he,
      bind, Except.bind]
  · obtain ⟨pc, hpc⟩ := hpc
    simp [collect_cpu_metrics, get_cpu_usage_per_core,
      get_cpu_usage_average, hpc, he, bind, Except.bind]
  · obtain ⟨pc, hpc⟩ := hpc
    obtain ⟨avg, havg⟩ := havg
    obtain ⟨la, hla⟩ := hla
    simp [collect_cpu_metrics, get_cpu_usage_per_core,
      get_cpu_usage_average, get_cpu_times_percent, hpc, havg, hla, he,
      bind, Except.bind]
  · obtain ⟨fpc, favg, fla, ftimes⟩ := f
    cases fpc with
    | error e =>
      simp [collect_cpu_metrics, get_cpu_usage_per_core,
        bind, Except.bind] at hm
    | ok pc =>
      cases favg with
      | error e =>
        simp [collect_cpu_metrics, get_cpu_usage_per_core,
          get_cpu_usage_average, bind, Except.bind] at hm
      | ok avg =>
        cases ftimes with
        | error e =>
          cases hq : fla with
          | ok t =>
            obtain ⟨l1, l5, l15⟩ := t
            simp [collect_cpu_metrics, get_cpu_usage_per_core,
              get_cpu_usage_average, get_load_average,
              get_cpu_times_percent, hq, bind, Except.bind,
              Functor.map, Except.map] at hm
          | error pe =>
            cases pe <;>
              simp [collect_cpu_metrics, get_cpu_usage_per_core,
                get_cpu_usage_average, get_load_average,
                get_cpu_times_percent, hq, bind, Except.bind,
                Functor.map, Except.map] at hm
        | ok times =>
          refine ⟨⟨pc, rfl⟩, ⟨avg, rfl⟩, ⟨times, rfl⟩, ?_⟩
          cases hq : fla with
          | ok t => exact Or.inl ⟨t, rfl⟩
          | error pe =>
            cases pe with
            | attributeError => exact Or.inr (Or.inl rfl)
            | notImplementedError => exact Or.inr (Or.inr rfl)
            | other s =>
              simp [collect_cpu_metrics, get_cpu_usage_per_core,
                get_cpu_usage_average, get_load_average, hq,
                bind, Except.bind, Functor.map, Except.map] at hm

/-- Witness for C4: a per-core query failure propagates at a concrete
facility. -/
theorem collect_cpu_metrics_propagates_witness :
    collect_cpu_metrics 0
        ⟨.error (.other "OSError"), .ok 0, .ok (0, 0, 0), .ok []⟩ =
      .error (.other "OSError") :=
  (collect_cpu_metrics_propagates 0
    ⟨.error (.other "OSError"), .ok 0, .ok (0, 0, 0), .ok []⟩).1
    (.other "OSError") rfl

/-- C5: every record `collect_cpu_metrics` returns has exactly the five
top-level keys, its `load_average` entry has exactly the three load keys,
and its `cpu_times_percent` entry has exactly the ten time-state keys,
whatever the facility's platform behaviour. -/
theorem collect_cpu_metrics_shape (now : ℚ) (f : Facility)
    (m : List (String × Val))
    (h : collect_cpu_metrics now f = .ok m) :
    m.map Prod.fst = metricsKeys ∧
    (∀ d, m.lookup "load_average" = some (Val.dict d) →
      d.map Prod.fst = loadKeys) ∧
    (∀ d, m.lookup "cpu_times_percent" = some (Val.dict d) →
      d.map Prod.fst = cpuTimesKeys) := by
  obtain ⟨fpc, favg, fla, ftimes⟩ := f
  cases fpc with
  | error e =>
    simp [collect_cpu_metrics, get_cpu_usage_per_core,
      bind, Except.bind] at h
  | ok pc =>
  cases favg with
  | error e =>
    simp [collect_cpu_metrics, get_cpu_usage_per_core,
      get_cpu_usage_average, bind, Except.bind] at h
  | ok avg =>
  cases ftimes with
  | error e =>
    rcases hla : get_load_average ⟨.ok pc, .ok avg, fla, .error e⟩ with la | la
    · simp [collect_cpu_metrics, get_cpu_usage_per_core,
        get_cpu_usage_average, get_cpu_times_percent, hla,
        bind, Except.bind, Functor.map, Except.map] at h
    · simp [collect_cpu_metrics, get_cpu_usage_per_core,
        get_cpu_usage_average, get_cpu_times_percent, hla,
        bind, Except.bind, Functor.map, Except.map] at h
  | ok times =>
  have hld : ∀ d, get_load_average ⟨.ok pc, .ok avg, fla, .ok times⟩ = .ok d →
      d.map Prod.fst = loadKeys := by
    intro d hd
    rw [get_load_average] at hd
    cases hq : fla with
    | ok t =>
      obtain ⟨l1, l5, l15⟩ := t
      simp only [hq] at hd
      obtain hde := (Except.ok.injEq _ _).mp hd
      subst hde
      rfl
    | error pe =>
      cases pe with
      | attributeError =>
        simp only [hq] at hd
        obtain hde := (Except.ok.injEq _ _).mp hd
        subst hde
        rfl
      | notImplementedError =>
        simp only [hq] at hd
        obtain hde := (Except.ok.injEq _ _).mp hd
        subst hde
        rfl
      | other s => simp [hq] at hd
  rcases hla : get_load_average ⟨.ok pc, .ok avg, fla, .ok times⟩ with la | la
  · simp [collect_cpu_metrics, get_cpu_usage_per_core,
      get_cpu_usage_average, get_cpu_times_percent, hla,
      bind, Except.bind, Functor.map, Except.map] at h
  · rw [collect_cpu_metrics] at h
    simp only [get_cpu_usage_per_core, get_cpu_usage_average,
      get_cpu_times_percent, hla, bind, Except.bind, pure,
      Except.pure] at h
    obtain hme := (Except.ok.injEq _ _).mp h
    subst hme
    refine ⟨rfl, fun d hd => ?_, fun d hd => ?_⟩
    · have hd2 : some (Val.dict la) = some (Val.dict d) := hd
      obtain hlad := Val.dict.inj (Option.some.inj hd2)
      exact hlad ▸ hld la hla
    · have hd2 : some (Val.dict (cpu_times_dict times)) =
          some (Val.dict d) := hd
      obtain htd := Val.dict.inj (Option.some.inj hd2)
      exact htd ▸ rfl

/-- Witness for C5 with a facility on which every query succeeds. -/
theorem collect_cpu_metrics_shape_witness :
    ([("timestamp", Val.num 0),
      ("cpu_usage_per_core", Val.list []),
      ("cpu_usage_average", Val.num 0),
      ("load_average",
        Val.dict [("load_1_min", 0), ("load_5_min", 0), ("load_15_min", 0)]),
      ("cpu_times_percent", Val.dict (cpu_times_dict []))].map Prod.fst =
        metricsKeys) ∧
    (∀ d, ([("timestamp", Val.num 0),
      ("cpu_usage_per_core", Val.list []),
      ("cpu_usage_average", Val.num 0),
      ("load_average",
        Val.dict [("load_1_min", 0), ("load_5_min", 0), ("load_15_min", 0)]),
      ("cpu_times_percent",
        Val.dict (cpu_times_dict []))]).lookup "load_average" =
          some (Val.dict d) → d.map Prod.fst = loadKeys) ∧
    (∀ d, ([("timestamp", Val.num 0),
      ("cpu_usage_per_core", Val.list []),
      ("cpu_usage_average", Val.num 0),
      ("load_average",
        Val.dict [("load_1_min", 0), ("load_5_min", 0), ("load_15_min", 0)]),
      ("cpu_times_percent",
        Val.dict (cpu_times_dict []))]).lookup "cpu_times_percent" =
          some (Val.dict d) → d.map Prod.fst = cpuTimesKeys) :=
  collect_cpu_metrics_shape 0 ⟨.ok [], .ok 0, .ok (0, 0, 0), .ok []⟩ _ rfl

/-- C6: every getter is a pure function of the facility state — two
consecutive calls made while the facility state is unchanged return equal
results; the module holds no hidden internal counters. -/
theorem getters_pure (f g : Facility) (h : f = g) :
    get_cpu_usage_per_core f = get_cpu_usage_per_core g ∧
    get_cpu_usage_average f = get_cpu_usage_average g ∧
    get_load_average f = get_load_average g ∧
    get_cpu_times_percent f = get_cpu_times_percent g := by
  subst h
  exact ⟨rfl, rfl, rfl, rfl⟩

/-- Witness for C6 at a concrete facility state. -/
theorem getters_pure_witness :
    get_cpu_usage_per_core ⟨.ok [1], .ok 2, .ok (0, 0, 0), .ok []⟩ =
      get_cpu_usage_per_core ⟨.ok [1], .ok 2, .ok (0, 0, 0), .ok []⟩ ∧
    get_cpu_usage_average ⟨.ok [1], .ok 2, .ok (0, 0, 0), .ok []⟩ =
      get_cpu_usage_average ⟨.ok [1], .ok 2, .ok (0, 0, 0), .ok []⟩ ∧
    get_load_average ⟨.ok [1], .ok 2, .ok (0, 0, 0), .ok []⟩ =
      get_load_average ⟨.ok [1], .ok 2, .ok (0, 0, 0), .ok []⟩ ∧
    get_cpu_times_percent ⟨.ok [1], .ok 2, .ok (0, 0, 0), .ok []⟩ =
      get_cpu_times_percent ⟨.ok [1], .ok 2, .ok (0, 0, 0), .ok []⟩ :=
  getters_pure ⟨.ok [1], .ok 2, .ok (0, 0, 0), .ok []⟩
    ⟨.ok [1], .ok 2, .ok (0, 0, 0), .ok []⟩ rfl

/-- C8 counterexample: `get_load_average` passes facility values through
unchanged, so a facility triple with one negative component yields an
output record that is neither all-non-negative nor all-sentinel. -/
theorem get_load_average_mixed_sign_counterexample :
    get_load_average ⟨.ok [], .ok 0, .ok (-(1/2), 1, 3/2), .ok []⟩ =
      .ok [("load_1_min", -(1/2)), ("load_5_min", 1), ("load_15_min", 3/2)] ∧
    ¬ (allNonneg
        [("load_1_min", -(1/2)), ("load_5_min", 1), ("load_15_min", 3/2)] ∨
       allSentinel
        [("load_1_min", -(1/2)), ("load_5_min", 1), ("load_15_min", 3/2)]) := by
  refine ⟨rfl, ?_⟩
  rintro (h | h)
  · have := h ("load_1_min", -(1/2)) (by simp)
    norm_num at this
  · have := h ("load_5_min", 1) (by simp)
    norm_num at this

/-- C8 amended: provided the facility only ever supplies non-negative
load values, every record `get_load_average` returns has either all three
fields non-negative or all three equal to the sentinel `-1.0`. -/
theorem get_load_average_nonneg_or_sentinel (f : Facility)
    (d : List (String × ℚ))
    (hfac : ∀ l1 l5 l15, f.getloadavg = .ok (l1, l5, l15) →
      0 ≤ l1 ∧ 0 ≤ l5 ∧ 0 ≤ l15)
    (h : get_load_average f = .ok d) :
    allNonneg d ∨ allSentinel d := by
  rw [get_load_average] at h
  cases hq : f.getloadavg with
  | ok t =>
    obtain ⟨l1, l5, l15⟩ := t
    obtain ⟨h1, h5, h15⟩ := hfac l1 l5 l15 hq
    simp only [hq] at h
    obtain hde := (Except.ok.injEq _ _).mp h
    subst hde
    left
    intro p hp
    simp only [List.mem_cons, List.not_mem_nil, or_false] at hp
    rcases hp with rfl | rfl | rfl
    · exact h1
    · exact h5
    · exact h15
  | error pe =>
    cases pe with
    | attributeError =>
      simp only [hq] at h
      obtain hde := (Except.ok.injEq _ _).mp h
      subst hde
      right
      intro p hp
      simp only [List.mem_cons, List.not_mem_nil, or_false] at hp
      rcases hp with rfl | rfl | rfl <;> rfl
    | notImplementedError =>
      simp only [hq] at h
      obtain hde := (Except.ok.injEq _ _).mp h
      subst hde
      right
      intro p hp
      simp only [List.mem_cons, List.not_mem_nil, or_false] at hp
      rcases hp with rfl | rfl | rfl <;> rfl
    | other s => simp [hq] at h

/-- Witness for the amended C8 at the facility triple `(0.5, 1.0, 1.5)`. -/
theorem get_load_average_nonneg_or_sentinel_witness :
    allNonneg
      [("load_1_min", (1:ℚ)/2), ("load_5_min", 1), ("load_15_min", 3/2)] ∨
    allSentinel
      [("load_1_min", (1:ℚ)/2), ("load_5_min", 1), ("load_15_min", 3/2)] :=
  get_load_average_nonneg_or_sentinel
    ⟨.ok [], .ok 0, .ok (1/2, 1, 3/2), .ok []⟩
    [("load_1_min", 1/2), ("load_5_min", 1), ("load_15_min", 3/2)]
    (fun l1 l5 l15 h => by
      simp only [Except.ok.injEq, Prod.mk.injEq] at h
      obtain ⟨h1, h5, h15⟩ := h
      subst h1
      subst h5
      subst h15
      norm_num)
    rfl

end ServerMonitor
